import Mathlib

/-!
Shallow embedding of the orchids-apis media download routes.

Each Next.js route handler is modelled as a pure function from its query
parameters and an environment describing the outcomes of every external call
(provider HTTP responses, media fetches, storage uploads, database inserts,
the freshly generated identifier) to the HTTP response it produces together
with the list of storage objects successfully written and the list of
metadata rows successfully inserted.
-/

namespace OrchidsApis

/-- A successful write of an object to the external storage service:
bucket name, object path and content type, as passed to `supabase.storage.upload`. -/
structure UploadCall where
  bucket : String
  path : String
  contentType : String
deriving DecidableEq

/-- An HTTP response of a downloader route: either raw bytes with a
Content-Type and Content-Disposition header (buffers are abstracted as `Nat`
tokens), or a JSON body with a status code. -/
inductive Response (β : Type) where
  | raw (status : Nat) (contentType : String) (disposition : String) (buf : Nat)
  | json (status : Nat) (body : β)
deriving DecidableEq

/-- HTTP status code of a response. -/
def Response.statusCode {β : Type} : Response β → Nat
  | .raw s _ _ _ => s
  | .json s _ => s

/-- Outcome of one POST to a cobalt instance, as seen by the route code:
the fetch threw, the response was not ok, or a parsed JSON body with its
`status`, `url` and `filename` fields (absent fields are `none`). -/
inductive CobaltResp where
  | netError
  | httpError (code : Nat)
  | json (status : Option String) (url : Option String) (filename : Option String)
deriving DecidableEq

/-- Outcome of one GET to the tikwm API: thrown fetch, non-ok response, or a
parsed body carrying `code`, whether `data` is present, and the optional
string fields the routes read (`data.hdplay`, `data.play`, `data.music`,
`data.music_info.play`, `data.title`, `data.author.nickname`, `data.cover`,
`data.origin_cover`). An absent `code` behaves like a non-zero one. -/
inductive TikwmResp where
  | netError
  | httpNotOk
  | json (code : Int) (hasData : Bool)
      (hdplay play music musicInfoPlay title authorNickname cover originCover : Option String)
deriving DecidableEq

/-- Outcome of fetching a resolved media URL: thrown fetch, non-ok status, or
a downloaded buffer. -/
inductive FetchResp where
  | netError
  | httpError (code : Nat)
  | ok (buf : Nat)
deriving DecidableEq

/-- Message of the error a thrown `fetch` surfaces; the routes catch it at the
top level and return it in a 500 body. Modelled as a fixed string distinct
from every message the route code itself throws. -/
def fetchFailMsg : String := "fetch failed"

namespace Yt

/-- Body of the two cobalt instance URLs tried by the yt route, processed in
order; this is the body of one iteration of the loop in `downloadFromCobalt`
(src/app/api/downloader/yt/route.ts lines 27-59): skip on thrown fetch,
non-ok response or `status === "error"`; return `{url, filename}` when
`status` is tunnel/redirect/stream or when `data.url` is truthy. -/
def cobaltAttempt : CobaltResp → Option (Option String × Option String)
  | .netError => none
  | .httpError _ => none
  | .json status url filename =>
    if status = some "error" then none
    else if status = some "tunnel" ∨ status = some "redirect" ∨ status = some "stream" then
      some (url, filename)
    else if url.isSome then some (url, filename)
    else none

/-- Message thrown when every cobalt instance failed (yt route line 62). -/
def cobaltErrorMsg : String := "YouTube download tidak tersedia saat ini. Silakan coba lagi nanti."

/-- The provider fallback loop of the yt route: try each instance response in
order, return the first usable result, throw after exhausting the list. -/
def downloadFromCobalt : List CobaltResp → Except String (Option String × Option String)
  | [] => .error cobaltErrorMsg
  | r :: rest =>
    match cobaltAttempt r with
    | some v => .ok v
    | none => downloadFromCobalt rest

/-- Character class `[a-zA-Z0-9_-]` of the video id patterns. -/
def idChar (c : Char) : Bool :=
  c.isAlpha || c.isDigit || c = '_' || c = '-'

/-- The alternatives of the first pattern of `extractVideoId`, in source
order: `youtube.com/watch?v=`, `youtu.be/`, `youtube.com/embed/`,
`youtube.com/v/`, `youtube.com/shorts/`. -/
def ytPrefixes : List (List Char) :=
  ["youtube.com/watch?v=", "youtu.be/", "youtube.com/embed/",
   "youtube.com/v/", "youtube.com/shorts/"].map String.data

/-- At one position of the input, try one alternative: if the literal matches
here and is followed by 11 characters of the id class, capture those 11. -/
def captureAfter (p : List Char) (cs : List Char) : Option String :=
  if p.isPrefixOf cs then
    let cand := (cs.drop p.length).take 11
    if cand.length = 11 ∧ cand.all idChar then some (String.mk cand) else none
  else none

/-- Leftmost match of the first pattern: scan positions left to right, at
each position try the alternatives in order. -/
def findPatternMatch : List Char → Option String
  | [] => none
  | c :: rest =>
    match ytPrefixes.findSome? (fun p => captureAfter p (c :: rest)) with
    | some s => some s
    | none => findPatternMatch rest

/-- `extractVideoId` (yt route lines 10-21): first pattern is the unanchored
prefix-alternation capture; second pattern accepts a bare 11-character id
(`^([a-zA-Z0-9_-]{11})$`); no match yields `null`. -/
def extractVideoId (url : String) : Option String :=
  match findPatternMatch url.data with
  | some s => some s
  | none =>
    if url.data.length = 11 ∧ url.data.all idChar then some url else none

/-- Outcome of the oembed fetch of `getVideoInfo`: thrown fetch, non-ok
response, or an ok response with the optional `title` and `author_name`
fields of its JSON body. -/
inductive OembedResp where
  | netError
  | httpOk (title author : Option String)
  | httpNotOk
deriving DecidableEq

/-- The metadata triple produced by `getVideoInfo`. -/
structure VideoInfo where
  title : String
  author : String
  thumbnail : String
deriving DecidableEq

/-- Thumbnail URL deterministically constructed from the video id. -/
def thumbUrl (videoId : String) : String :=
  "https://img.youtube.com/vi/" ++ videoId ++ "/maxresdefault.jpg"

/-- `getVideoInfo` (yt route lines 65-88): throws on an unextractable video
id; on an ok oembed response uses its fields with fallbacks; on any fetch
failure falls back to the placeholder triple. -/
def getVideoInfo (url : String) (resp : OembedResp) : Except String VideoInfo :=
  match extractVideoId url with
  | none => .error "Invalid YouTube URL"
  | some videoId =>
    match resp with
    | .httpOk title author =>
        .ok ⟨title.getD "YouTube Video", author.getD "Unknown", thumbUrl videoId⟩
    | _ => .ok ⟨"YouTube Video", "Unknown", thumbUrl videoId⟩

/-- Row inserted into the `yt_downloads` table. -/
structure YtRow where
  id : String
  youtube_url : String
  title : String
  author : String
  thumbnail_url : String
  mp4_path : Option String
  mp3_path : Option String
  type : String
deriving DecidableEq

/-- Outcomes of every external call the yt route makes, in program order:
the two cobalt instances, the oembed fetch, the media download, the storage
upload, the database insert, and the identifier `crypto.randomUUID` returns. -/
structure YtEnv where
  cobalt : List CobaltResp
  oembed : OembedResp
  media : FetchResp
  uploadErr : Option String
  insertErr : Option String
  newId : String
deriving DecidableEq

/-- JSON bodies the yt route can return. -/
inductive YtBody where
  | err (msg : String)
  | ok (id youtube_url title author thumbnail ty result_url : String)
deriving DecidableEq

/-- Result of one yt route invocation: the response, the storage objects
written, the metadata rows inserted. -/
structure YtOut where
  resp : Response YtBody
  uploads : List UploadCall
  rows : List YtRow
deriving DecidableEq

/-- Body of the yt route's try block, after parameter validation
(yt route lines 103-206). -/
def handle (yurl t : String) (env : YtEnv) : YtOut :=
  match extractVideoId yurl with
  | none => ⟨.json 400 (.err "Invalid YouTube URL"), [], []⟩
  | some _ =>
    match downloadFromCobalt env.cobalt, getVideoInfo yurl env.oembed with
    | .error m, _ => ⟨.json 500 (.err m), [], []⟩
    | .ok _, .error m => ⟨.json 500 (.err m), [], []⟩
    | .ok _, .ok info =>
      match env.media with
      | .netError => ⟨.json 500 (.err fetchFailMsg), [], []⟩
      | .httpError code => ⟨.json 500 (.err ("Failed to fetch media: " ++ toString code)), [], []⟩
      | .ok buf =>
        let id := env.newId
        let ext := if t = "mp3" then "mp3" else "mp4"
        let fileName := id ++ "." ++ ext
        let contentType := if t = "mp3" then "audio/mpeg" else "video/mp4"
        match env.uploadErr with
        | some e => ⟨.json 500 (.err ("Failed to upload to storage: " ++ e)), [], []⟩
        | none =>
          let up : UploadCall := ⟨"yt-downloads", fileName, contentType⟩
          match env.insertErr with
          | some e => ⟨.json 500 (.err ("Failed to save metadata: " ++ e)), [up], []⟩
          | none =>
            let row : YtRow := ⟨id, yurl, info.title, info.author, info.thumbnail,
              if t = "mp4" then some fileName else none,
              if t = "mp3" then some fileName else none, t⟩
            if t = "mp4" then
              ⟨.raw 200 contentType ("inline; filename=\"youtube_" ++ id ++ "." ++ ext ++ "\"") buf,
               [up], [row]⟩
            else
              ⟨.json 200 (.ok id yurl info.title info.author info.thumbnail t
                ("https://apis.visora.my.id/result/ytdownloader/" ++ id)), [up], [row]⟩

/-- The yt route handler `GET` (yt route lines 90-207): validate
`youtube_url` and `type`, then run the pipeline. -/
def GET (youtube_url ty : Option String) (env : YtEnv) : YtOut :=
  match youtube_url with
  | none => ⟨.json 400 (.err "Parameter 'youtube_url' is required"), [], []⟩
  | some yurl =>
    match ty with
    | some "mp3" => handle yurl "mp3" env
    | some "mp4" => handle yurl "mp4" env
    | _ => ⟨.json 400 (.err "Parameter 'type' is required and must be 'mp3' or 'mp4'"), [], []⟩

end Yt

namespace TikMp4

/-- The payload `tryTikwm` returns in the tiktokmp4downloader route
(lines 5-11): a video URL plus optional music URL and metadata. -/
structure TikTokData where
  videoUrl : String
  musicUrl : Option String
  title : String
  author : String
  thumbnailUrl : Option String
deriving DecidableEq

/-- `tryTikwm` (tiktokmp4downloader route lines 13-34): soft-fails to `none`
on thrown fetch, non-ok response, `code !== 0` or missing `data`; requires
`hdplay || play` for the video URL; fills the remaining fields with
fallbacks. -/
def tryTikwm : TikwmResp → Option TikTokData
  | .netError => none
  | .httpNotOk => none
  | .json code hasData hdplay play music musicInfoPlay title authorNickname cover originCover =>
    if code ≠ 0 ∨ hasData = false then none
    else
      match hdplay <|> play with
      | none => none
      | some v =>
        some ⟨v, music <|> musicInfoPlay,
              title.getD "TikTok Video", authorNickname.getD "Unknown",
              cover <|> originCover⟩

/-- Body of one iteration of the loop in the tiktokmp4downloader route's
`tryCobalt` (lines 38-57): skip on thrown fetch, non-ok response or
`status === "error"`; return `data.url` when truthy. -/
def cobaltAttempt : CobaltResp → Option String
  | .netError => none
  | .httpError _ => none
  | .json status url _ =>
    if status = some "error" then none else url

/-- `tryCobalt` (tiktokmp4downloader route lines 36-59): try each instance in
order, return the first `data.url`; `isAudio` only shapes the request body. -/
def tryCobalt (resps : List CobaltResp) (isAudio : Bool) : Option String :=
  match resps with
  | [] => none
  | r :: rest =>
    match cobaltAttempt r with
    | some u => some u
    | none => tryCobalt rest isAudio

/-- The local resolution state of the route after the provider chain
(lines 81-103): `videoUrl`/`musicUrl` and metadata with their initial
defaults. -/
structure Resolved where
  videoUrl : Option String
  musicUrl : Option String
  title : String
  author : String
  thumbnailUrl : Option String
deriving DecidableEq

/-- Provider resolution of the tiktokmp4downloader route (lines 81-103):
tikwm first; only when it fails, cobalt, whose single URL lands in the field
selected by the requested type. -/
def resolveProviders (tikwm : TikwmResp) (cobalt : List CobaltResp) (t : String) : Resolved :=
  match tryTikwm tikwm with
  | some d => ⟨some d.videoUrl, d.musicUrl, d.title, d.author, d.thumbnailUrl⟩
  | none =>
    match tryCobalt cobalt (t = "mp3") with
    | some u =>
      if t = "mp3" then ⟨none, some u, "TikTok Video", "Unknown", none⟩
      else ⟨some u, none, "TikTok Video", "Unknown", none⟩
    | none => ⟨none, none, "TikTok Video", "Unknown", none⟩

/-- Row inserted into the `tiktok_downloads` table. -/
structure TikRow where
  id : String
  tiktok_url : String
  mp4_path : Option String
  mp3_path : Option String
  thumbnail_path : Option String
  title : String
  author : String
  thumbnail_url : Option String
deriving DecidableEq

/-- Outcomes of the external calls of the tiktokmp4downloader route. -/
structure TikEnv where
  tikwm : TikwmResp
  cobalt : List CobaltResp
  videoFetch : FetchResp
  musicFetch : FetchResp
  thumbFetch : FetchResp
  videoUploadErr : Option String
  musicUploadErr : Option String
  thumbUploadErr : Option String
  insertErr : Option String
  newId : String
deriving DecidableEq

/-- JSON bodies of the tiktokmp4downloader route: error, the mp3 result
envelope carrying a `result_url`, and the non-instant mp4 envelope carrying a
direct public `video_url` (route lines 237-247). -/
inductive TikBody where
  | err (msg : String)
  | mp3Result (id tiktok_url title author : String) (thumbnail : Option String)
      (ty result_url : String)
  | mp4Direct (id tiktok_url title author : String) (thumbnail : Option String)
      (video_url : String)
deriving DecidableEq

/-- The `result_url` field of a tiktokmp4downloader JSON body, when the body
has one. -/
def TikBody.resultUrl? : TikBody → Option String
  | .mp3Result _ _ _ _ _ _ r => some r
  | _ => none

/-- Result of one tiktokmp4downloader invocation. -/
structure TikOut where
  resp : Response TikBody
  uploads : List UploadCall
  rows : List TikRow
deriving DecidableEq

/-- Body of the tiktokmp4downloader route's try block after validation
(lines 80-247). `pub` is the storage provider's public-URL derivation. -/
def handle (pub : String → String → String) (turl : String) (autoShow : Bool) (t : String)
    (env : TikEnv) : TikOut :=
  let res := resolveProviders env.tikwm env.cobalt t
  if t = "mp4" ∧ res.videoUrl = none then
    ⟨.json 500 (.err "No video URL found from any provider"), [], []⟩
  else if t = "mp3" ∧ res.musicUrl = none then
    ⟨.json 500 (.err "No music URL found from any provider"), [], []⟩
  else
    let videoStep : Except String (Option Nat) :=
      if t = "mp4" ∧ res.videoUrl.isSome then
        match env.videoFetch with
        | .netError => .error fetchFailMsg
        | .httpError _ => .error "Failed to fetch video file"
        | .ok b => .ok (some b)
      else .ok none
    let musicStep : Except String (Option Nat) :=
      if t = "mp3" ∧ res.musicUrl.isSome then
        match env.musicFetch with
        | .netError => .error fetchFailMsg
        | .httpError _ => .error "Failed to fetch music file"
        | .ok b => .ok (some b)
      else .ok none
    match videoStep with
    | .error m => ⟨.json 500 (.err m), [], []⟩
    | .ok videoBuffer =>
      match musicStep with
      | .error m => ⟨.json 500 (.err m), [], []⟩
      | .ok musicBuffer =>
        let id := env.newId
        let mp4FileName := if videoBuffer.isSome then some (id ++ ".mp4") else none
        let mp3FileName := if musicBuffer.isSome then some (id ++ ".mp3") else none
        match videoBuffer, env.videoUploadErr with
        | some _, some e =>
          ⟨.json 500 (.err ("Failed to upload video to storage: " ++ e)), [], []⟩
        | _, _ =>
          let uploadsV : List UploadCall :=
            match mp4FileName with
            | some f => [⟨"tiktok-downloads", f, "video/mp4"⟩]
            | none => []
          match musicBuffer, env.musicUploadErr with
          | some _, some e =>
            ⟨.json 500 (.err ("Failed to upload music to storage: " ++ e)), uploadsV, []⟩
          | _, _ =>
            let uploadsM : List UploadCall :=
              match mp3FileName with
              | some f => [⟨"tiktok-downloads", f, "audio/mpeg"⟩]
              | none => []
            let thumbStep : Option String × List UploadCall :=
              match res.thumbnailUrl with
              | none => (none, [])
              | some _ =>
                match env.thumbFetch with
                | .netError => (none, [])
                | .httpError _ => (none, [])
                | .ok _ =>
                  let thumbFileName := id ++ "_thumb.jpg"
                  (some thumbFileName,
                    if env.thumbUploadErr = none then
                      [⟨"tiktok-downloads", thumbFileName, "image/jpeg"⟩]
                    else [])
            let thumbnailPath := thumbStep.1
            let uploads := uploadsV ++ uploadsM ++ thumbStep.2
            let row : TikRow :=
              ⟨id, turl, mp4FileName, mp3FileName, thumbnailPath, res.title, res.author,
               res.thumbnailUrl⟩
            let rows := if env.insertErr = none then [row] else []
            if autoShow ∧ t = "mp4" ∧ videoBuffer.isSome then
              ⟨.raw 200 "video/mp4" ("inline; filename=\"tiktok_" ++ id ++ ".mp4\"")
                (videoBuffer.getD 0), uploads, rows⟩
            else if t = "mp3" then
              ⟨.json 200 (.mp3Result id turl res.title res.author res.thumbnailUrl t
                ("https://apis.visora.my.id/result/mp4tiktok/" ++ id)), uploads, rows⟩
            else
              ⟨.json 200 (.mp4Direct id turl res.title res.author res.thumbnailUrl
                (pub "tiktok-downloads" (mp4FileName.getD ""))), uploads, rows⟩

/-- The tiktokmp4downloader route handler `GET` (lines 61-261): validate
`tiktokvid_url` and `type`, compute the `auto_show` flag (anything but the
literal string "false" enables it), then run the pipeline. -/
def GET (pub : String → String → String) (tiktokvid_url auto_show ty : Option String)
    (env : TikEnv) : TikOut :=
  match tiktokvid_url with
  | none => ⟨.json 400 (.err "Parameter 'tiktokvid_url' is required"), [], []⟩
  | some turl =>
    let autoShow := auto_show ≠ some "false"
    match ty with
    | some "mp3" => handle pub turl autoShow "mp3" env
    | some "mp4" => handle pub turl autoShow "mp4" env
    | _ => ⟨.json 400 (.err "Parameter 'type' is required and must be 'mp3' or 'mp4'"), [], []⟩

end TikMp4

namespace Vid2mp3

/-- `tryTikwm` of the tiktokvid2mp3 route (lines 5-20): soft-fails to `none`
on thrown fetch, non-ok response, `code !== 0` or missing `data`; returns
`data.music || data.music_info.play` when truthy. -/
def tryTikwm : TikwmResp → Option String
  | .netError => none
  | .httpNotOk => none
  | .json code hasData _ _ music musicInfoPlay _ _ _ _ =>
    if code ≠ 0 ∨ hasData = false then none
    else music <|> musicInfoPlay

/-- Body of one iteration of the loop in the tiktokvid2mp3 route's
`tryCobalt` (lines 25-37). -/
def cobaltAttempt : CobaltResp → Option String
  | .netError => none
  | .httpError _ => none
  | .json status url _ =>
    if status = some "error" then none else url

/-- `tryCobalt` of the tiktokvid2mp3 route (lines 22-40): try each instance
in order, return the first `data.url`. -/
def tryCobalt (resps : List CobaltResp) : Option String :=
  match resps with
  | [] => none
  | r :: rest =>
    match cobaltAttempt r with
    | some u => some u
    | none => tryCobalt rest

/-- Row inserted into the `tiktok_mp3s` table. -/
structure Mp3Row where
  id : String
  tiktok_url : String
  mp3_path : String
deriving DecidableEq

/-- Outcomes of the external calls of the tiktokvid2mp3 route. -/
structure Mp3Env where
  tikwm : TikwmResp
  cobalt : List CobaltResp
  musicFetch : FetchResp
  uploadErr : Option String
  insertErr : Option String
  newId : String
deriving DecidableEq

/-- JSON bodies of the tiktokvid2mp3 route. -/
inductive Mp3Body where
  | err (msg : String)
  | ok (id tiktok_url result_url : String)
deriving DecidableEq

/-- Result of one tiktokvid2mp3 invocation. -/
structure Mp3Out where
  resp : Response Mp3Body
  uploads : List UploadCall
  rows : List Mp3Row
deriving DecidableEq

/-- The tiktokvid2mp3 route handler `GET` (lines 42-143): validate
`tiktokvid_url`, read the `instant-appearance` flag (enabled only by the
literal string "true"), resolve tikwm then cobalt, download, upload, insert
(insert errors only logged), respond with raw audio or the JSON envelope. -/
def GET (tiktokvid_url instant_appearance : Option String) (env : Mp3Env) : Mp3Out :=
  match tiktokvid_url with
  | none => ⟨.json 400 (.err "Parameter 'tiktokvid_url' is required"), [], []⟩
  | some turl =>
    let instantAppearance := instant_appearance = some "true"
    match (tryTikwm env.tikwm) <|> tryCobalt env.cobalt with
    | none => ⟨.json 500 (.err "All providers failed to get music URL"), [], []⟩
    | some _ =>
      match env.musicFetch with
      | .netError => ⟨.json 500 (.err fetchFailMsg), [], []⟩
      | .httpError _ => ⟨.json 500 (.err "Failed to fetch music file from provider"), [], []⟩
      | .ok buf =>
        let id := env.newId
        let fileName := id ++ ".mp3"
        match env.uploadErr with
        | some e => ⟨.json 500 (.err ("Failed to upload to storage: " ++ e)), [], []⟩
        | none =>
          let up : UploadCall := ⟨"tiktok-mp3s", fileName, "audio/mpeg"⟩
          let rows : List Mp3Row :=
            if env.insertErr = none then [⟨id, turl, fileName⟩] else []
          if instantAppearance then
            ⟨.raw 200 "audio/mpeg" ("inline; filename=\"tiktok_" ++ id ++ ".mp3\"") buf,
             [up], rows⟩
          else
            ⟨.json 200 (.ok id turl ("https://apis.visora.my.id/result/tiktokvid2mp3/" ++ id)),
             [up], rows⟩

end Vid2mp3

namespace YtResult

/-- JSON bodies of the result-lookup route. The single URL field of a found
descriptor is named `mp3_url` whatever the record's type. -/
inductive LookupBody where
  | err (msg : String)
  | found (id youtube_url title author thumbnail_url ty mp3_url : String)
deriving DecidableEq

/-- The `mp3_url` field of a lookup body, when the body has one. -/
def LookupBody.mp3Url? : LookupBody → Option String
  | .found _ _ _ _ _ _ u => some u
  | _ => none

/-- The result-lookup route handler `GET`
(src/app/api/result/ytdownloader/[id]/route.ts lines 5-58). `db` is the
outcome of the `yt_downloads` select by id: a thrown exception (the message
is never surfaced), no row, or the row; `pub` is the storage provider's
public-URL derivation on a bucket and path. -/
def GET (pub : String → String → String) (id : String)
    (db : Except String (Option Yt.YtRow)) : Response LookupBody :=
  match db with
  | .error _ => .json 500 (.err "Internal server error")
  | .ok none => .json 404 (.err "Download not found")
  | .ok (some meta) =>
    match meta.mp3_path <|> meta.mp4_path with
    | none => .json 404 (.err "File not found")
    | some filePath =>
      .json 200 (.found meta.id meta.youtube_url meta.title meta.author meta.thumbnail_url
        meta.type (pub "yt-downloads" filePath))

end YtResult

namespace Imagen

/-- Responses of the image-generation route: the watermarked PNG bytes with
the `X-Result-URL` header, or a redirect to an error page. -/
inductive ImagenResponse where
  | png (status : Nat) (resultUrl : String) (buf : Nat)
  | redirect (status : Nat) (errorCode : Nat) (message : String)
deriving DecidableEq

/-- HTTP status code of an image-generation response. -/
def ImagenResponse.statusCode : ImagenResponse → Nat
  | .png s _ _ => s
  | .redirect s _ _ => s

/-- Modelled from the spec: `errorRedirect` lives in lib/utils, which is not
under src/. Per the spec, the image-generation variant "redirects to an error
page instead of returning JSON on failure"; the redirect carries the error
code and the message, and the response's own HTTP status is the framework's
default redirect status 307, not the carried code. -/
def errorRedirect (code : Nat) (message : String) : ImagenResponse :=
  .redirect 307 code message

/-- Row inserted into the `ai_images` table. -/
structure ImageRow where
  id : String
  prompt : String
  image_path : String
deriving DecidableEq

/-- Outcomes of the external calls of the image-generation route:
`generateFromFlux` (an error message or an image buffer), the watermark
fetch, the sharp compositing calls (external library, an error or success),
the storage upload, the database insert, and the generated hex id. -/
structure ImagenEnv where
  flux : Except String Nat
  watermarkFetch : FetchResp
  sharpErr : Option String
  uploadErr : Option String
  insertErr : Option String
  newId : String

/-- Result of one image-generation invocation. -/
structure ImagenOut where
  resp : ImagenResponse
  uploads : List UploadCall
  rows : List ImageRow
deriving DecidableEq

/-- The sharp watermark compositing, an external library treated as opaque:
the output buffer is a token pairing the two input buffers. -/
def watermarkComposite (image watermark : Nat) : Nat := Nat.pair image watermark

/-- The image-generation route handler `GET` (second file concatenated into
src/app/api/result/ytdownloader/[id]/route.ts, lines 116-213 of the original
file): require `prompt` (else `errorRedirect` with 400), generate, fetch the
watermark, composite, upload, insert (both hard failures here), return the
PNG bytes; every caught error becomes `errorRedirect` with 500. -/
def GET (prompt : Option String) (env : ImagenEnv) : ImagenOut :=
  match prompt with
  | none => ⟨errorRedirect 400 "Parameter 'prompt' is required", [], []⟩
  | some p =>
    match env.flux with
    | .error m => ⟨errorRedirect 500 m, [], []⟩
    | .ok imageBuffer =>
      match env.watermarkFetch with
      | .netError => ⟨errorRedirect 500 fetchFailMsg, [], []⟩
      | .httpError _ => ⟨errorRedirect 500 "Failed to download watermark image", [], []⟩
      | .ok wmBuffer =>
        match env.sharpErr with
        | some m => ⟨errorRedirect 500 m, [], []⟩
        | none =>
          let watermarked := watermarkComposite imageBuffer wmBuffer
          let id := env.newId
          let imagePath := "imagen-3.5-pro/" ++ id ++ ".png"
          match env.uploadErr with
          | some e => ⟨errorRedirect 500 e, [], []⟩
          | none =>
            let up : UploadCall := ⟨"ai-images", imagePath, "image/png"⟩
            match env.insertErr with
            | some e => ⟨errorRedirect 500 e, [up], []⟩
            | none =>
              ⟨.png 200 ("/image/imagen-3.5-pro/result/" ++ id) watermarked,
               [up], [⟨id, p, imagePath⟩]⟩

end Imagen

/-! Helper lemmas. -/

theorem ne_of_data_ne (s t : String) (h : s.data ≠ t.data) : s ≠ t :=
  fun he => h (congrArg String.data he)

theorem append_ne_of_head (a e b : String) (c d : Char) (r r' : List Char)
    (ha : a.data = c :: r) (hb : b.data = d :: r') (hcd : c ≠ d) : a ++ e ≠ b := by
  intro h
  have h1 : ((a ++ e).data).head? = some c := by rw [String.data_append, ha]; rfl
  have h2 : ((a ++ e).data).head? = some d := by rw [h, hb]; rfl
  rw [h1] at h2
  exact hcd (Option.some.inj h2)

theorem downloadFromCobalt_eq (rs : List CobaltResp) :
    Yt.downloadFromCobalt rs =
      match rs.findSome? Yt.cobaltAttempt with
      | some v => Except.ok v
      | none => Except.error Yt.cobaltErrorMsg := by
  induction rs with
  | nil => rfl
  | cons r rest ih =>
    simp only [Yt.downloadFromCobalt, List.findSome?_cons]
    cases h : Yt.cobaltAttempt r <;> simp [h, ih]

theorem tikCobalt_eq (rs : List CobaltResp) (b : Bool) :
    TikMp4.tryCobalt rs b = rs.findSome? TikMp4.cobaltAttempt := by
  induction rs with
  | nil => rfl
  | cons r rest ih =>
    simp only [TikMp4.tryCobalt, List.findSome?_cons]
    cases h : TikMp4.cobaltAttempt r <;> simp [h, ih]

theorem vidCobalt_eq (rs : List CobaltResp) :
    Vid2mp3.tryCobalt rs = rs.findSome? Vid2mp3.cobaltAttempt := by
  induction rs with
  | nil => rfl
  | cons r rest ih =>
    simp only [Vid2mp3.tryCobalt, List.findSome?_cons]
    cases h : Vid2mp3.cobaltAttempt r <;> simp [h, ih]

theorem captureAfter_shape (p cs : List Char) (s : String)
    (h : Yt.captureAfter p cs = some s) :
    s.data.length = 11 ∧ s.data.all Yt.idChar = true := by
  unfold Yt.captureAfter at h
  split at h
  · simp only [] at h
    split at h
    · next hc =>
      cases h
      exact hc
    · exact absurd h (by simp)
  · exact absurd h (by simp)

theorem prefixCapture_shape (ps : List (List Char)) (cs : List Char) (s : String)
    (h : ps.findSome? (fun p => Yt.captureAfter p cs) = some s) :
    s.data.length = 11 ∧ s.data.all Yt.idChar = true := by
  induction ps with
  | nil => simp at h
  | cons p rest ih =>
    rw [List.findSome?_cons] at h
    cases hp : Yt.captureAfter p cs with
    | some t =>
      rw [hp] at h
      cases h
      exact captureAfter_shape p cs s hp
    | none =>
      rw [hp] at h
      exact ih h

theorem findPatternMatch_shape (cs : List Char) (s : String)
    (h : Yt.findPatternMatch cs = some s) :
    s.data.length = 11 ∧ s.data.all Yt.idChar = true := by
  induction cs with
  | nil => simp [Yt.findPatternMatch] at h
  | cons c rest ih =>
    rw [Yt.findPatternMatch] at h
    cases hf : Yt.ytPrefixes.findSome? (fun p => Yt.captureAfter p (c :: rest)) with
    | some t =>
      rw [hf] at h
      cases h
      exact prefixCapture_shape _ _ _ hf
    | none =>
      rw [hf] at h
      exact ih h

theorem extractVideoId_shape (url : String) (s : String)
    (h : Yt.extractVideoId url = some s) :
    s.data.length = 11 ∧ s.data.all Yt.idChar = true := by
  unfold Yt.extractVideoId at h
  cases hf : Yt.findPatternMatch url.data with
  | some t =>
    rw [hf] at h
    cases h
    exact findPatternMatch_shape _ _ hf
  | none =>
    rw [hf] at h
    by_cases hc : url.data.length = 11 ∧ url.data.all Yt.idChar = true
    · rw [if_pos hc] at h
      cases h
      exact hc
    · rw [if_neg hc] at h
      exact absurd h (by simp)

theorem yt_handle_rows (yurl t : String) (env : Yt.YtEnv) (row : Yt.YtRow)
    (hrow : row ∈ (Yt.handle yurl t env).rows) :
    ∃ info : Yt.VideoInfo,
      row = ⟨env.newId, yurl, info.title, info.author, info.thumbnail,
        if t = "mp4" then some (env.newId ++ "." ++ (if t = "mp3" then "mp3" else "mp4")) else none,
        if t = "mp3" then some (env.newId ++ "." ++ (if t = "mp3" then "mp3" else "mp4")) else none,
        t⟩ := by
  obtain ⟨cob, oem, med, upe, ine, nid⟩ := env
  cases hx : Yt.extractVideoId yurl with
  | none => simp [Yt.handle, hx] at hrow
  | some v =>
    cases hd : Yt.downloadFromCobalt cob with
    | error m => simp [Yt.handle, hx, hd] at hrow
    | ok dl =>
      cases hi : Yt.getVideoInfo yurl oem with
      | error m => simp [Yt.handle, hx, hd, hi] at hrow
      | ok info =>
        cases med with
        | netError => simp [Yt.handle, hx, hd, hi] at hrow
        | httpError c => simp [Yt.handle, hx, hd, hi] at hrow
        | ok buf =>
          cases upe with
          | some e => simp [Yt.handle, hx, hd, hi] at hrow
          | none =>
            cases ine with
            | some e => simp [Yt.handle, hx, hd, hi] at hrow
            | none =>
              by_cases ht : t = "mp4"
              · simp [Yt.handle, hx, hd, hi, ht] at hrow
                exact ⟨info, by rw [hrow]; simp [ht]⟩
              · simp [Yt.handle, hx, hd, hi, ht] at hrow
                exact ⟨info, by rw [hrow]; simp [ht]⟩

theorem tik_handle_rows_mp4 (pub : String → String → String) (turl : String) (auto : Bool)
    (env : TikMp4.TikEnv) (row : TikMp4.TikRow)
    (hrow : row ∈ (TikMp4.handle pub turl auto "mp4" env).rows) :
    row.mp4_path = some (env.newId ++ ".mp4") ∧ row.mp3_path = none := by
  obtain ⟨tikwm, cob, vf, mf, tf, vue, mue, tue, ine, nid⟩ := env
  cases hres : (TikMp4.resolveProviders tikwm cob "mp4").videoUrl with
  | none => simp [TikMp4.handle, hres] at hrow
  | some u =>
    cases vf with
    | netError => simp [TikMp4.handle, hres] at hrow
    | httpError c => simp [TikMp4.handle, hres] at hrow
    | ok b =>
      cases vue with
      | some e => simp [TikMp4.handle, hres] at hrow
      | none =>
        cases ine with
        | some e => cases auto <;> simp [TikMp4.handle, hres] at hrow
        | none =>
          cases auto <;>
          · simp [TikMp4.handle, hres] at hrow
            rw [hrow]
            exact ⟨rfl, rfl⟩

theorem tik_handle_rows_mp3 (pub : String → String → String) (turl : String) (auto : Bool)
    (env : TikMp4.TikEnv) (row : TikMp4.TikRow)
    (hrow : row ∈ (TikMp4.handle pub turl auto "mp3" env).rows) :
    row.mp3_path = some (env.newId ++ ".mp3") ∧ row.mp4_path = none := by
  obtain ⟨tikwm, cob, vf, mf, tf, vue, mue, tue, ine, nid⟩ := env
  cases hres : (TikMp4.resolveProviders tikwm cob "mp3").musicUrl with
  | none => simp [TikMp4.handle, hres] at hrow
  | some u =>
    cases mf with
    | netError => simp [TikMp4.handle, hres] at hrow
    | httpError c => simp [TikMp4.handle, hres] at hrow
    | ok b =>
      cases mue with
      | some e => simp [TikMp4.handle, hres] at hrow
      | none =>
        cases ine with
        | some e => cases auto <;> simp [TikMp4.handle, hres] at hrow
        | none =>
          cases auto <;>
          · simp [TikMp4.handle, hres] at hrow
            rw [hrow]
            exact ⟨rfl, rfl⟩

theorem getVideoInfo_isOk (url v : String) (resp : Yt.OembedResp)
    (h : Yt.extractVideoId url = some v) :
    ∃ info, Yt.getVideoInfo url resp = Except.ok info := by
  unfold Yt.getVideoInfo
  rw [h]
  cases resp <;> exact ⟨_, rfl⟩

theorem resolve_video_none_iff (w : TikwmResp) (c : List CobaltResp) :
    (TikMp4.resolveProviders w c "mp4").videoUrl = none ↔
      TikMp4.tryTikwm w = none ∧ ∀ r ∈ c, TikMp4.cobaltAttempt r = none := by
  unfold TikMp4.resolveProviders
  cases hw : TikMp4.tryTikwm w with
  | some d => simp [hw]
  | none =>
    rw [tikCobalt_eq]
    cases hc : c.findSome? TikMp4.cobaltAttempt with
    | some u =>
      simp only [hw]
      constructor
      · intro h
        simp at h
      · rintro ⟨_, hall⟩
        rw [List.findSome?_eq_none_iff.mpr hall] at hc
        exact absurd hc (by simp)
    | none =>
      simp [hw, ← List.findSome?_eq_none_iff, hc]

theorem resolve_music_none_iff (w : TikwmResp) (c : List CobaltResp) :
    (TikMp4.resolveProviders w c "mp3").musicUrl = none ↔
      (TikMp4.tryTikwm w = none ∧ ∀ r ∈ c, TikMp4.cobaltAttempt r = none) ∨
      (∃ d, TikMp4.tryTikwm w = some d ∧ d.musicUrl = none) := by
  unfold TikMp4.resolveProviders
  cases hw : TikMp4.tryTikwm w with
  | some d => simp [hw]
  | none =>
    rw [tikCobalt_eq]
    cases hc : c.findSome? TikMp4.cobaltAttempt with
    | some u =>
      simp only [hw]
      constructor
      · intro h
        simp at h
      · rintro (⟨_, hall⟩ | ⟨d, hd, _⟩)
        · rw [List.findSome?_eq_none_iff.mpr hall] at hc
          exact absurd hc (by simp)
        · exact absurd hd (by simp)
    | none =>
      simp [hw, ← List.findSome?_eq_none_iff, hc]

theorem tik_handle_mp4_fail_iff (pub : String → String → String) (turl : String) (auto : Bool)
    (env : TikMp4.TikEnv) :
    (TikMp4.handle pub turl auto "mp4" env).resp =
        Response.json 500 (TikMp4.TikBody.err "No video URL found from any provider") ↔
      (TikMp4.resolveProviders env.tikwm env.cobalt "mp4").videoUrl = none := by
  obtain ⟨tikwm, cob, vf, mf, tf, vue, mue, tue, ine, nid⟩ := env
  cases hres : (TikMp4.resolveProviders tikwm cob "mp4").videoUrl with
  | none => simp [TikMp4.handle, hres]
  | some u =>
    cases vf with
    | netError => simp [TikMp4.handle, hres, fetchFailMsg]
    | httpError c => simp [TikMp4.handle, hres]
    | ok b =>
      cases vue with
      | some e =>
        simp [TikMp4.handle, hres]
        exact append_ne_of_head "Failed to upload video to storage: " e
          "No video URL found from any provider" 'F' 'N' _ _ rfl rfl (by decide)
      | none =>
        cases auto <;> simp [TikMp4.handle, hres]

theorem tik_handle_mp3_fail_iff (pub : String → String → String) (turl : String) (auto : Bool)
    (env : TikMp4.TikEnv) :
    (TikMp4.handle pub turl auto "mp3" env).resp =
        Response.json 500 (TikMp4.TikBody.err "No music URL found from any provider") ↔
      (TikMp4.resolveProviders env.tikwm env.cobalt "mp3").musicUrl = none := by
  obtain ⟨tikwm, cob, vf, mf, tf, vue, mue, tue, ine, nid⟩ := env
  cases hres : (TikMp4.resolveProviders tikwm cob "mp3").musicUrl with
  | none => simp [TikMp4.handle, hres]
  | some u =>
    cases mf with
    | netError => simp [TikMp4.handle, hres, fetchFailMsg]
    | httpError c => simp [TikMp4.handle, hres]
    | ok b =>
      cases mue with
      | some e =>
        simp [TikMp4.handle, hres]
        exact append_ne_of_head "Failed to upload music to storage: " e
          "No music URL found from any provider" 'F' 'N' _ _ rfl rfl (by decide)
      | none =>
        cases auto <;> simp [TikMp4.handle, hres]

/-! Claim theorems. -/

/-- C4: video-identifier extraction is total over the enumerated URL shapes.
Both example URLs yield `dQw4w9WgXcQ`; an unextractable URL yields the
well-defined failures: `extractVideoId` returns `none` and the route answers
400 "Invalid YouTube URL"; and every identifier the ordered pattern list
captures is an 11-character string over `[a-zA-Z0-9_-]`. -/
theorem C4_extract_video_id :
    Yt.extractVideoId "https://youtu.be/dQw4w9WgXcQ" = some "dQw4w9WgXcQ" ∧
    Yt.extractVideoId "https://www.youtube.com/watch?v=dQw4w9WgXcQ" = some "dQw4w9WgXcQ" ∧
    (∀ url s, Yt.extractVideoId url = some s →
      s.data.length = 11 ∧ s.data.all Yt.idChar = true) ∧
    (∀ url env, Yt.extractVideoId url = none →
      Yt.GET (some url) (some "mp4") env =
        ⟨Response.json 400 (Yt.YtBody.err "Invalid YouTube URL"), [], []⟩) := by
  refine ⟨by decide, by decide, extractVideoId_shape, ?_⟩
  intro url env h
  simp [Yt.GET, Yt.handle, h]

/-- C4 witness: the totality part of `C4_extract_video_id` instantiated at
the short-link example and an unextractable URL. -/
theorem C4_extract_video_id_witness :
    ("dQw4w9WgXcQ" : String).data.length = 11 ∧
      ("dQw4w9WgXcQ" : String).data.all Yt.idChar = true :=
  C4_extract_video_id.2.2.1 "https://youtu.be/dQw4w9WgXcQ" "dQw4w9WgXcQ" (by decide)

/-- C7 counterexample: metadata enrichment does raise. For an input URL with
no extractable video identifier, `getVideoInfo` throws "Invalid YouTube URL"
before its internal try/catch, instead of returning a placeholder triple. -/
theorem C7_counterexample :
    Yt.getVideoInfo "https://example.com/page" Yt.OembedResp.httpNotOk =
      Except.error "Invalid YouTube URL" := by
  have h : Yt.extractVideoId "https://example.com/page" = none := by decide
  unfold Yt.getVideoInfo
  rw [h]

/-- C7 (amended): for every input URL with an extractable video identifier,
metadata enrichment never fails: on any failure of the embed-info fetch it
returns the fixed placeholder triple ("YouTube Video", "Unknown", the
thumbnail URL deterministically constructed from the identifier), and it
always produces a usable result. For URLs without an extractable identifier
it raises "Invalid YouTube URL". -/
theorem C7_metadata_enrichment :
    (∀ url v resp, Yt.extractVideoId url = some v →
      (resp = Yt.OembedResp.netError ∨ resp = Yt.OembedResp.httpNotOk) →
      Yt.getVideoInfo url resp = Except.ok ⟨"YouTube Video", "Unknown", Yt.thumbUrl v⟩) ∧
    (∀ url v resp, Yt.extractVideoId url = some v →
      ∃ info, Yt.getVideoInfo url resp = Except.ok info) ∧
    (∀ url resp, Yt.extractVideoId url = none →
      Yt.getVideoInfo url resp = Except.error "Invalid YouTube URL") := by
  refine ⟨?_, ?_, ?_⟩
  · intro url v resp hv hfail
    unfold Yt.getVideoInfo
    rw [hv]
    rcases hfail with h | h <;> subst h <;> rfl
  · intro url v resp hv
    unfold Yt.getVideoInfo
    rw [hv]
    cases resp <;> exact ⟨_, rfl⟩
  · intro url resp hnone
    unfold Yt.getVideoInfo
    rw [hnone]

/-- C7 witness: a failing embed fetch for the short-link example URL yields
the placeholder triple. -/
theorem C7_metadata_enrichment_witness :
    Yt.getVideoInfo "https://youtu.be/dQw4w9WgXcQ" Yt.OembedResp.netError =
      Except.ok ⟨"YouTube Video", "Unknown", Yt.thumbUrl "dQw4w9WgXcQ"⟩ :=
  C7_metadata_enrichment.1 "https://youtu.be/dQw4w9WgXcQ" "dQw4w9WgXcQ"
    Yt.OembedResp.netError (by decide) (Or.inl rfl)

/-- C8: in the result-lookup endpoint, a missing metadata row yields 404
with "Download not found"; a row whose two path fields are both null yields
404 with "File not found"; a thrown failure yields 500 with the fixed
generic message "Internal server error", whatever the internal error text
was. -/
theorem C8_result_lookup_errors :
    (∀ pub id, YtResult.GET pub id (Except.ok none) =
        Response.json 404 (YtResult.LookupBody.err "Download not found")) ∧
    (∀ pub id row, row.mp3_path = none → row.mp4_path = none →
      YtResult.GET pub id (Except.ok (some row)) =
        Response.json 404 (YtResult.LookupBody.err "File not found")) ∧
    (∀ pub id e, YtResult.GET pub id (Except.error e) =
        Response.json 500 (YtResult.LookupBody.err "Internal server error")) := by
  refine ⟨fun pub id => rfl, ?_, fun pub id e => rfl⟩
  intro pub id row h3 h4
  unfold YtResult.GET
  simp [h3, h4]

/-- C8 witness: a row with both path fields null, and a thrown lookup whose
internal message does not reach the response. -/
theorem C8_result_lookup_errors_witness :
    YtResult.GET (fun _ _ => "") "i"
        (Except.ok (some ⟨"i", "u", "t", "a", "th", none, none, "mp4"⟩)) =
      Response.json 404 (YtResult.LookupBody.err "File not found") :=
  C8_result_lookup_errors.2.1 (fun _ _ => "") "i" ⟨"i", "u", "t", "a", "th", none, none, "mp4"⟩
    rfl rfl

/-- C10: the result-lookup endpoint derives the public URL from the mp3 path
when present and otherwise from the mp4 path, and always returns it under
the single field name `mp3_url`; in particular, for a record created with
type mp4 the video's public URL appears in the `mp3_url` field. -/
theorem C10_mp3_url_field :
    (∀ pub id row p, row.mp3_path = some p →
      YtResult.GET pub id (Except.ok (some row)) =
        Response.json 200 (YtResult.LookupBody.found row.id row.youtube_url row.title row.author
          row.thumbnail_url row.type (pub "yt-downloads" p)) ∧
      YtResult.LookupBody.mp3Url? (YtResult.LookupBody.found row.id row.youtube_url row.title
        row.author row.thumbnail_url row.type (pub "yt-downloads" p)) =
          some (pub "yt-downloads" p)) ∧
    (∀ pub id row p, row.mp3_path = none → row.mp4_path = some p →
      YtResult.GET pub id (Except.ok (some row)) =
        Response.json 200 (YtResult.LookupBody.found row.id row.youtube_url row.title row.author
          row.thumbnail_url row.type (pub "yt-downloads" p)) ∧
      YtResult.LookupBody.mp3Url? (YtResult.LookupBody.found row.id row.youtube_url row.title
        row.author row.thumbnail_url row.type (pub "yt-downloads" p)) =
          some (pub "yt-downloads" p)) := by
  constructor
  · intro pub id row p h3
    refine ⟨?_, rfl⟩
    unfold YtResult.GET
    simp [h3]
  · intro pub id row p h3 h4
    refine ⟨?_, rfl⟩
    unfold YtResult.GET
    simp [h3, h4]

/-- C10 witness: a concrete type-mp4 record whose video public URL is
returned in the `mp3_url` field. -/
theorem C10_mp3_url_field_witness :
    YtResult.GET (fun b p => b ++ "/" ++ p) "ID"
        (Except.ok (some ⟨"ID", "u", "t", "a", "th", some "ID.mp4", none, "mp4"⟩)) =
      Response.json 200 (YtResult.LookupBody.found "ID" "u" "t" "a" "th" "mp4"
        "yt-downloads/ID.mp4") ∧
    YtResult.LookupBody.mp3Url? (YtResult.LookupBody.found "ID" "u" "t" "a" "th" "mp4"
        "yt-downloads/ID.mp4") = some "yt-downloads/ID.mp4" :=
  C10_mp3_url_field.2 (fun b p => b ++ "/" ++ p) "ID"
    ⟨"ID", "u", "t", "a", "th", some "ID.mp4", none, "mp4"⟩ "ID.mp4" rfl rfl

/-- C5 counterexample (spec-modelled `errorRedirect`): a request to the
image-generation route with `prompt` missing is answered by a redirect to an
error page, whose HTTP status is the redirect status 307 and not 400, contra
the claim that every missing-parameter response has status 400. -/
theorem C5_counterexample :
    (Imagen.GET none ⟨Except.ok 1, FetchResp.ok 2, none, none, none, "ID"⟩).resp =
      Imagen.ImagenResponse.redirect 307 400 "Parameter 'prompt' is required" ∧
    Imagen.ImagenResponse.statusCode
      ((Imagen.GET none ⟨Except.ok 1, FetchResp.ok 2, none, none, none, "ID"⟩).resp) ≠ 400 :=
  ⟨rfl, by decide⟩

/-- C5 (amended): for every downloader or converter request missing a
required parameter the response is a 400 JSON body whose error string names
the missing parameter; the image-generation route instead redirects to an
error page carrying the 400 code and a message naming `prompt`. -/
theorem C5_missing_param :
    (∀ t env, (Yt.GET none t env).resp =
        Response.json 400 (Yt.YtBody.err "Parameter 'youtube_url' is required")) ∧
    (∀ yu env, (Yt.GET (some yu) none env).resp =
        Response.json 400 (Yt.YtBody.err "Parameter 'type' is required and must be 'mp3' or 'mp4'")) ∧
    (∀ pub as t env, (TikMp4.GET pub none as t env).resp =
        Response.json 400 (TikMp4.TikBody.err "Parameter 'tiktokvid_url' is required")) ∧
    (∀ pub tu as env, (TikMp4.GET pub (some tu) as none env).resp =
        Response.json 400 (TikMp4.TikBody.err "Parameter 'type' is required and must be 'mp3' or 'mp4'")) ∧
    (∀ ia env, (Vid2mp3.GET none ia env).resp =
        Response.json 400 (Vid2mp3.Mp3Body.err "Parameter 'tiktokvid_url' is required")) ∧
    (∀ env, (Imagen.GET none env).resp =
        Imagen.errorRedirect 400 "Parameter 'prompt' is required") :=
  ⟨fun _ _ => rfl, fun _ _ => rfl, fun _ _ _ _ => rfl, fun _ _ _ _ => rfl,
   fun _ _ => rfl, fun _ => rfl⟩

/-- C2: whenever the source URL fails resolution at every provider, the
route responds 500 and performs no storage write: no object is uploaded and
no metadata row is inserted. Stated for the yt route (every cobalt instance
fails), the tiktokvid2mp3 route and the tiktokmp4downloader route (tikwm and
every cobalt instance fail). -/
theorem C2_no_write_on_provider_failure :
    (∀ yurl v t env, Yt.extractVideoId yurl = some v →
      (t = some "mp3" ∨ t = some "mp4") →
      (∀ r ∈ env.cobalt, Yt.cobaltAttempt r = none) →
      Yt.GET (some yurl) t env =
        ⟨Response.json 500 (Yt.YtBody.err Yt.cobaltErrorMsg), [], []⟩) ∧
    (∀ turl ia env, Vid2mp3.tryTikwm env.tikwm = none →
      (∀ r ∈ env.cobalt, Vid2mp3.cobaltAttempt r = none) →
      Vid2mp3.GET (some turl) ia env =
        ⟨Response.json 500 (Vid2mp3.Mp3Body.err "All providers failed to get music URL"), [], []⟩) ∧
    (∀ pub turl as env, TikMp4.tryTikwm env.tikwm = none →
      (∀ r ∈ env.cobalt, TikMp4.cobaltAttempt r = none) →
      TikMp4.GET pub (some turl) as (some "mp4") env =
        ⟨Response.json 500 (TikMp4.TikBody.err "No video URL found from any provider"), [], []⟩ ∧
      TikMp4.GET pub (some turl) as (some "mp3") env =
        ⟨Response.json 500 (TikMp4.TikBody.err "No music URL found from any provider"), [], []⟩) := by
  refine ⟨?_, ?_, ?_⟩
  · intro yurl v t env hv ht hc
    have hd : Yt.downloadFromCobalt env.cobalt = Except.error Yt.cobaltErrorMsg := by
      rw [downloadFromCobalt_eq, List.findSome?_eq_none_iff.mpr hc]
    rcases ht with rfl | rfl <;> simp [Yt.GET, Yt.handle, hv, hd]
  · intro turl ia env hw hc
    have hcob : Vid2mp3.tryCobalt env.cobalt = none := by
      rw [vidCobalt_eq, List.findSome?_eq_none_iff.mpr hc]
    simp [Vid2mp3.GET, hw, hcob]
  · intro pub turl as env hw hc
    have hcob : ∀ b, TikMp4.tryCobalt env.cobalt b = none := by
      intro b
      rw [tikCobalt_eq, List.findSome?_eq_none_iff.mpr hc]
    constructor <;> simp [TikMp4.GET, TikMp4.handle, TikMp4.resolveProviders, hw, hcob]

/-- C2 witness: with the single cobalt instance failing, a valid yt request
gets the 500 and neither list of effects has an entry. -/
theorem C2_no_write_on_provider_failure_witness :
    Yt.GET (some "https://youtu.be/dQw4w9WgXcQ") (some "mp3")
        ⟨[CobaltResp.netError], Yt.OembedResp.httpNotOk, FetchResp.ok 0, none, none, "ID"⟩ =
      ⟨Response.json 500 (Yt.YtBody.err Yt.cobaltErrorMsg), [], []⟩ :=
  C2_no_write_on_provider_failure.1 "https://youtu.be/dQw4w9WgXcQ" "dQw4w9WgXcQ" (some "mp3")
    ⟨[CobaltResp.netError], Yt.OembedResp.httpNotOk, FetchResp.ok 0, none, none, "ID"⟩
    (by decide) (Or.inl rfl) (by decide)

/-- C3: for every successful download request, exactly one of the two media
path fields of the persisted record is non-null, matching the requested
type: mp4 populates the video path and leaves the audio path null, mp3 the
reverse. Stated over every row either route ever inserts. -/
theorem C3_exactly_one_path :
    (∀ yu t env row, row ∈ (Yt.GET yu t env).rows →
      (t = some "mp4" ∧ row.type = "mp4" ∧ row.mp4_path.isSome ∧ row.mp3_path = none) ∨
      (t = some "mp3" ∧ row.type = "mp3" ∧ row.mp3_path.isSome ∧ row.mp4_path = none)) ∧
    (∀ pub tu as ty env row, row ∈ (TikMp4.GET pub tu as ty env).rows →
      (ty = some "mp4" ∧ row.mp4_path.isSome ∧ row.mp3_path = none) ∨
      (ty = some "mp3" ∧ row.mp3_path.isSome ∧ row.mp4_path = none)) := by
  constructor
  · intro yu t env row hrow
    unfold Yt.GET at hrow
    split at hrow
    · simp at hrow
    · split at hrow
      · obtain ⟨info, hr⟩ := yt_handle_rows _ _ _ _ hrow
        right
        refine ⟨rfl, ?_, ?_, ?_⟩ <;> rw [hr] <;> simp
      · obtain ⟨info, hr⟩ := yt_handle_rows _ _ _ _ hrow
        left
        refine ⟨rfl, ?_, ?_, ?_⟩ <;> rw [hr] <;> simp
      · simp at hrow
  · intro pub tu as ty env row hrow
    unfold TikMp4.GET at hrow
    split at hrow
    · simp at hrow
    · split at hrow
      · right
        have h := tik_handle_rows_mp3 _ _ _ _ _ hrow
        exact ⟨rfl, by rw [h.1]; rfl, h.2⟩
      · left
        have h := tik_handle_rows_mp4 _ _ _ _ _ hrow
        exact ⟨rfl, by rw [h.1]; rfl, h.2⟩
      · simp at hrow

/-- C3 witness: the row a successful mp4 yt request inserts has its video
path populated and its audio path null. -/
theorem C3_exactly_one_path_witness :
    ((some "mp4" : Option String) = some "mp4" ∧
      (⟨"ID", "https://youtu.be/dQw4w9WgXcQ", "YouTube Video", "Unknown",
        Yt.thumbUrl "dQw4w9WgXcQ", some "ID.mp4", none, "mp4"⟩ : Yt.YtRow).type = "mp4" ∧
      (⟨"ID", "https://youtu.be/dQw4w9WgXcQ", "YouTube Video", "Unknown",
        Yt.thumbUrl "dQw4w9WgXcQ", some "ID.mp4", none, "mp4"⟩ : Yt.YtRow).mp4_path.isSome ∧
      (⟨"ID", "https://youtu.be/dQw4w9WgXcQ", "YouTube Video", "Unknown",
        Yt.thumbUrl "dQw4w9WgXcQ", some "ID.mp4", none, "mp4"⟩ : Yt.YtRow).mp3_path = none) ∨
    ((some "mp4" : Option String) = some "mp3" ∧
      (⟨"ID", "https://youtu.be/dQw4w9WgXcQ", "YouTube Video", "Unknown",
        Yt.thumbUrl "dQw4w9WgXcQ", some "ID.mp4", none, "mp4"⟩ : Yt.YtRow).type = "mp3" ∧
      (⟨"ID", "https://youtu.be/dQw4w9WgXcQ", "YouTube Video", "Unknown",
        Yt.thumbUrl "dQw4w9WgXcQ", some "ID.mp4", none, "mp4"⟩ : Yt.YtRow).mp3_path.isSome ∧
      (⟨"ID", "https://youtu.be/dQw4w9WgXcQ", "YouTube Video", "Unknown",
        Yt.thumbUrl "dQw4w9WgXcQ", some "ID.mp4", none, "mp4"⟩ : Yt.YtRow).mp4_path = none) :=
  C3_exactly_one_path.1 (some "https://youtu.be/dQw4w9WgXcQ") (some "mp4")
    ⟨[CobaltResp.json (some "tunnel") (some "u") none], Yt.OembedResp.httpNotOk,
      FetchResp.ok 7, none, none, "ID"⟩
    ⟨"ID", "https://youtu.be/dQw4w9WgXcQ", "YouTube Video", "Unknown",
      Yt.thumbUrl "dQw4w9WgXcQ", some "ID.mp4", none, "mp4"⟩
    (by decide)

/-- C9: metadata-write failure handling diverges across routes. When the
insert into the metadata table fails and everything before it succeeded, the
yt route aborts the request with a 500 naming the save failure, while the
tiktokmp4downloader and tiktokvid2mp3 routes only log it and still return a
200 success response (with no row persisted in any route). -/
theorem C9_insert_failure_divergence :
    (∀ yurl v env e dl b, Yt.extractVideoId yurl = some v →
      Yt.downloadFromCobalt env.cobalt = Except.ok dl →
      env.media = FetchResp.ok b →
      env.uploadErr = none →
      env.insertErr = some e →
      ∀ t, (t = "mp3" ∨ t = "mp4") →
      (Yt.GET (some yurl) (some t) env).resp =
        Response.json 500 (Yt.YtBody.err ("Failed to save metadata: " ++ e)) ∧
      (Yt.GET (some yurl) (some t) env).rows = []) ∧
    (∀ pub turl as env e d b, TikMp4.tryTikwm env.tikwm = some d →
      env.videoFetch = FetchResp.ok b →
      env.videoUploadErr = none →
      env.insertErr = some e →
      (TikMp4.GET pub (some turl) as (some "mp4") env).resp.statusCode = 200 ∧
      (TikMp4.GET pub (some turl) as (some "mp4") env).rows = []) ∧
    (∀ turl ia env e u b, Vid2mp3.tryTikwm env.tikwm = some u →
      env.musicFetch = FetchResp.ok b →
      env.uploadErr = none →
      env.insertErr = some e →
      (Vid2mp3.GET (some turl) ia env).resp.statusCode = 200 ∧
      (Vid2mp3.GET (some turl) ia env).rows = []) := by
  refine ⟨?_, ?_, ?_⟩
  · intro yurl v env e dl b hv hdl hmed hup hins t ht
    obtain ⟨info, hinfo⟩ := getVideoInfo_isOk yurl v env.oembed hv
    rcases ht with rfl | rfl <;>
      constructor <;> simp [Yt.GET, Yt.handle, hv, hdl, hinfo, hmed, hup, hins]
  · intro pub turl as env e d b hw hvf hvue hins
    have hres : TikMp4.resolveProviders env.tikwm env.cobalt "mp4" =
        ⟨some d.videoUrl, d.musicUrl, d.title, d.author, d.thumbnailUrl⟩ := by
      unfold TikMp4.resolveProviders
      rw [hw]
    by_cases has : as = some "false" <;>
      constructor <;>
        simp [TikMp4.GET, TikMp4.handle, hres, hvf, hvue, hins, has, Response.statusCode]
  · intro turl ia env e u b hw hmf hup hins
    by_cases hia : ia = some "true" <;>
      constructor <;>
        simp [Vid2mp3.GET, hw, hmf, hup, hins, hia, Response.statusCode]

/-- C9 witness: a tiktokvid2mp3 request whose insert fails still answers
200, and persists nothing. -/
theorem C9_insert_failure_divergence_witness :
    (Vid2mp3.GET (some "https://www.tiktok.com/@u/video/1") none
        ⟨TikwmResp.json 0 true none none (some "m") none none none none none, [],
          FetchResp.ok 5, none, some "duplicate key", "ID"⟩).resp.statusCode = 200 ∧
    (Vid2mp3.GET (some "https://www.tiktok.com/@u/video/1") none
        ⟨TikwmResp.json 0 true none none (some "m") none none none none none, [],
          FetchResp.ok 5, none, some "duplicate key", "ID"⟩).rows = [] :=
  C9_insert_failure_divergence.2.2 "https://www.tiktok.com/@u/video/1" none
    ⟨TikwmResp.json 0 true none none (some "m") none none none none none, [],
      FetchResp.ok 5, none, some "duplicate key", "ID"⟩
    "duplicate key" "m" 5 (by decide) rfl rfl rfl

/-- C6 counterexample: a successful mp4 request that opted out of immediate
delivery (`auto_show=false`) is answered neither with raw bytes nor with a
`result_url` envelope: the JSON body is the `mp4Direct` variant carrying a
direct public `video_url`, and its result-url field is absent. -/
theorem C6_counterexample :
    (TikMp4.GET (fun b p => "PUB/" ++ b ++ "/" ++ p) (some "https://www.tiktok.com/@u/video/1")
        (some "false") (some "mp4")
        ⟨TikwmResp.json 0 true (some "v") none none none (some "T") (some "A") (some "cov") none,
          [], FetchResp.ok 1, FetchResp.ok 2, FetchResp.ok 3, none, none, none, none, "ID"⟩).resp =
      Response.json 200 (TikMp4.TikBody.mp4Direct "ID" "https://www.tiktok.com/@u/video/1" "T" "A"
        (some "cov") "PUB/tiktok-downloads/ID.mp4") ∧
    TikMp4.TikBody.resultUrl? (TikMp4.TikBody.mp4Direct "ID" "https://www.tiktok.com/@u/video/1"
        "T" "A" (some "cov") "PUB/tiktok-downloads/ID.mp4") = none :=
  ⟨rfl, rfl⟩

/-- C6 (amended): for every successful request of the tiktokmp4downloader
route, mp4 with the `auto_show` flag on (its default) yields the raw video
bytes with an inline Content-Disposition, and mp3 yields the JSON envelope
whose `result_url` points at the lookup endpoint; but mp4 with
`auto_show=false` yields a JSON envelope carrying a direct public
`video_url` instead of a `result_url`. In the tiktokvid2mp3 route the
delivery flag `instant-appearance` defaults to off: when "true" the raw
audio bytes are returned inline, otherwise the JSON envelope with a
`result_url`. -/
theorem C6_response_shaping :
    (∀ pub turl as env, as ≠ some "false" →
      (TikMp4.GET pub (some turl) as (some "mp4") env).resp.statusCode = 200 →
      ∃ b, (TikMp4.GET pub (some turl) as (some "mp4") env).resp =
        Response.raw 200 "video/mp4"
          ("inline; filename=\"tiktok_" ++ env.newId ++ ".mp4\"") b) ∧
    (∀ pub turl as env, (TikMp4.GET pub (some turl) as (some "mp3") env).resp.statusCode = 200 →
      (TikMp4.GET pub (some turl) as (some "mp3") env).resp =
        Response.json 200 (TikMp4.TikBody.mp3Result env.newId turl
          (TikMp4.resolveProviders env.tikwm env.cobalt "mp3").title
          (TikMp4.resolveProviders env.tikwm env.cobalt "mp3").author
          (TikMp4.resolveProviders env.tikwm env.cobalt "mp3").thumbnailUrl "mp3"
          ("https://apis.visora.my.id/result/mp4tiktok/" ++ env.newId))) ∧
    (∀ pub turl env,
      (TikMp4.GET pub (some turl) (some "false") (some "mp4") env).resp.statusCode = 200 →
      (TikMp4.GET pub (some turl) (some "false") (some "mp4") env).resp =
        Response.json 200 (TikMp4.TikBody.mp4Direct env.newId turl
          (TikMp4.resolveProviders env.tikwm env.cobalt "mp4").title
          (TikMp4.resolveProviders env.tikwm env.cobalt "mp4").author
          (TikMp4.resolveProviders env.tikwm env.cobalt "mp4").thumbnailUrl
          (pub "tiktok-downloads" (env.newId ++ ".mp4")))) ∧
    (∀ turl env, (Vid2mp3.GET (some turl) (some "true") env).resp.statusCode = 200 →
      ∃ b, (Vid2mp3.GET (some turl) (some "true") env).resp =
        Response.raw 200 "audio/mpeg"
          ("inline; filename=\"tiktok_" ++ env.newId ++ ".mp3\"") b) ∧
    (∀ turl ia env, ia ≠ some "true" →
      (Vid2mp3.GET (some turl) ia env).resp.statusCode = 200 →
      (Vid2mp3.GET (some turl) ia env).resp =
        Response.json 200 (Vid2mp3.Mp3Body.ok env.newId turl
          ("https://apis.visora.my.id/result/tiktokvid2mp3/" ++ env.newId))) := by
  refine ⟨?_, ?_, ?_, ?_, ?_⟩
  · intro pub turl as env has h
    obtain ⟨tikwm, cob, vf, mf, tf, vue, mue, tue, ine, nid⟩ := env
    cases hres : (TikMp4.resolveProviders tikwm cob "mp4").videoUrl with
    | none => simp [TikMp4.GET, TikMp4.handle, hres, Response.statusCode] at h
    | some u =>
      cases vf with
      | netError => simp [TikMp4.GET, TikMp4.handle, hres, Response.statusCode] at h
      | httpError c => simp [TikMp4.GET, TikMp4.handle, hres, Response.statusCode] at h
      | ok b =>
        cases vue with
        | some e => simp [TikMp4.GET, TikMp4.handle, hres, Response.statusCode] at h
        | none => exact ⟨b, by simp [TikMp4.GET, TikMp4.handle, hres, has]⟩
  · intro pub turl as env h
    obtain ⟨tikwm, cob, vf, mf, tf, vue, mue, tue, ine, nid⟩ := env
    cases hres : (TikMp4.resolveProviders tikwm cob "mp3").musicUrl with
    | none => simp [TikMp4.GET, TikMp4.handle, hres, Response.statusCode] at h
    | some u =>
      cases mf with
      | netError => simp [TikMp4.GET, TikMp4.handle, hres, Response.statusCode] at h
      | httpError c => simp [TikMp4.GET, TikMp4.handle, hres, Response.statusCode] at h
      | ok b =>
        cases mue with
        | some e => simp [TikMp4.GET, TikMp4.handle, hres, Response.statusCode] at h
        | none => simp [TikMp4.GET, TikMp4.handle, hres]
  · intro pub turl env h
    obtain ⟨tikwm, cob, vf, mf, tf, vue, mue, tue, ine, nid⟩ := env
    cases hres : (TikMp4.resolveProviders tikwm cob "mp4").videoUrl with
    | none => simp [TikMp4.GET, TikMp4.handle, hres, Response.statusCode] at h
    | some u =>
      cases vf with
      | netError => simp [TikMp4.GET, TikMp4.handle, hres, Response.statusCode] at h
      | httpError c => simp [TikMp4.GET, TikMp4.handle, hres, Response.statusCode] at h
      | ok b =>
        cases vue with
        | some e => simp [TikMp4.GET, TikMp4.handle, hres, Response.statusCode] at h
        | none => simp [TikMp4.GET, TikMp4.handle, hres]
  · intro turl env h
    obtain ⟨tikwm, cob, mfail, upe, ine, nid⟩ := env
    cases hres : (Vid2mp3.tryTikwm tikwm) <|> Vid2mp3.tryCobalt cob with
    | none => simp [Vid2mp3.GET, hres, Response.statusCode] at h
    | some u =>
      cases mfail with
      | netError => simp [Vid2mp3.GET, hres, Response.statusCode] at h
      | httpError c => simp [Vid2mp3.GET, hres, Response.statusCode] at h
      | ok b =>
        cases upe with
        | some e => simp [Vid2mp3.GET, hres, Response.statusCode] at h
        | none => exact ⟨b, by simp [Vid2mp3.GET, hres]⟩
  · intro turl ia env hia h
    obtain ⟨tikwm, cob, mfail, upe, ine, nid⟩ := env
    cases hres : (Vid2mp3.tryTikwm tikwm) <|> Vid2mp3.tryCobalt cob with
    | none => simp [Vid2mp3.GET, hres, Response.statusCode] at h
    | some u =>
      cases mfail with
      | netError => simp [Vid2mp3.GET, hres, Response.statusCode] at h
      | httpError c => simp [Vid2mp3.GET, hres, Response.statusCode] at h
      | ok b =>
        cases upe with
        | some e => simp [Vid2mp3.GET, hres, Response.statusCode] at h
        | none => simp [Vid2mp3.GET, hres, hia]

/-- C6 witness: a successful mp4 request with the default flag is answered
with raw inline video bytes. -/
theorem C6_response_shaping_witness :
    ∃ b, (TikMp4.GET (fun _ _ => "") (some "https://www.tiktok.com/@u/video/1") none (some "mp4")
        ⟨TikwmResp.json 0 true (some "v") none none none (some "T") (some "A") none none,
          [], FetchResp.ok 1, FetchResp.ok 2, FetchResp.ok 3, none, none, none, none, "ID"⟩).resp =
      Response.raw 200 "video/mp4" ("inline; filename=\"tiktok_" ++ "ID" ++ ".mp4\"") b :=
  C6_response_shaping.1 (fun _ _ => "") "https://www.tiktok.com/@u/video/1" none
    ⟨TikwmResp.json 0 true (some "v") none none none (some "T") (some "A") none none,
      [], FetchResp.ok 1, FetchResp.ok 2, FetchResp.ok 3, none, none, none, none, "ID"⟩
    (by decide) (by decide)

/-- C1 counterexample: the hard failure is not reserved for the case where
every provider was attempted and failed. With type mp3, when tikwm returns a
payload with a video URL but no music URL, the route raises "No music URL
found from any provider" while the cobalt mirror — never consulted, as the
chain short-circuits on tikwm's success — would have yielded a usable music
URL. -/
theorem C1_counterexample :
    (TikMp4.GET (fun _ _ => "") (some "https://www.tiktok.com/@u/video/1") none (some "mp3")
        ⟨TikwmResp.json 0 true (some "v") none none none none none none none,
          [CobaltResp.json none (some "https://mirror.example/a.mp3") none],
          FetchResp.ok 1, FetchResp.ok 2, FetchResp.ok 3,
          none, none, none, none, "ID"⟩).resp =
      Response.json 500 (TikMp4.TikBody.err "No music URL found from any provider") ∧
    TikMp4.cobaltAttempt (CobaltResp.json none (some "https://mirror.example/a.mp3") none) =
      some "https://mirror.example/a.mp3" ∧
    TikMp4.tryTikwm (TikwmResp.json 0 true (some "v") none none none none none none none) =
      some ⟨"v", none, "TikTok Video", "Unknown", none⟩ := by
  refine ⟨by decide, by decide, by decide⟩

/-- C1 (amended): providers are attempted in the fixed priority order and
each at most once, and the first provider yielding a usable result
short-circuits the chain. For the yt route the cobalt loop returns the first
usable instance in list order and throws exactly when every instance fails.
For the TikTok route, tikwm's success makes the result independent of the
mirrors; the mp4 hard failure occurs exactly when tikwm and every mirror
failed; but the mp3 hard failure also occurs — without the mirrors being
consulted — when tikwm succeeded with a payload lacking a music URL. -/
theorem C1_provider_chain :
    (∀ rs : List CobaltResp,
      Yt.downloadFromCobalt rs =
        (match rs.findSome? Yt.cobaltAttempt with
         | some v => Except.ok v
         | none => Except.error Yt.cobaltErrorMsg)) ∧
    (∀ (rs : List CobaltResp) (b : Bool),
      TikMp4.tryCobalt rs b = rs.findSome? TikMp4.cobaltAttempt) ∧
    (∀ w c c' t d, TikMp4.tryTikwm w = some d →
      TikMp4.resolveProviders w c t = TikMp4.resolveProviders w c' t) ∧
    (∀ pub turl as env,
      (TikMp4.GET pub (some turl) as (some "mp4") env).resp =
          Response.json 500 (TikMp4.TikBody.err "No video URL found from any provider") ↔
        (TikMp4.tryTikwm env.tikwm = none ∧
          ∀ r ∈ env.cobalt, TikMp4.cobaltAttempt r = none)) ∧
    (∀ pub turl as env,
      (TikMp4.GET pub (some turl) as (some "mp3") env).resp =
          Response.json 500 (TikMp4.TikBody.err "No music URL found from any provider") ↔
        ((TikMp4.tryTikwm env.tikwm = none ∧
            ∀ r ∈ env.cobalt, TikMp4.cobaltAttempt r = none) ∨
          (∃ d, TikMp4.tryTikwm env.tikwm = some d ∧ d.musicUrl = none))) := by
  refine ⟨downloadFromCobalt_eq, tikCobalt_eq, ?_, ?_, ?_⟩
  · intro w c c' t d hw
    unfold TikMp4.resolveProviders
    rw [hw]
  · intro pub turl as env
    simp only [TikMp4.GET]
    exact (tik_handle_mp4_fail_iff pub turl _ env).trans
      (resolve_video_none_iff env.tikwm env.cobalt)
  · intro pub turl as env
    simp only [TikMp4.GET]
    exact (tik_handle_mp3_fail_iff pub turl _ env).trans
      (resolve_music_none_iff env.tikwm env.cobalt)

/-- C1 witness: a successful tikwm response makes the TikTok resolution
independent of the mirror list. -/
theorem C1_provider_chain_witness :
    TikMp4.resolveProviders (TikwmResp.json 0 true (some "v") none none none none none none none)
        [] "mp4" =
      TikMp4.resolveProviders (TikwmResp.json 0 true (some "v") none none none none none none none)
        [CobaltResp.netError] "mp4" :=
  C1_provider_chain.2.2.1 (TikwmResp.json 0 true (some "v") none none none none none none none)
    [] [CobaltResp.netError] "mp4" ⟨"v", none, "TikTok Video", "Unknown", none⟩ (by decide)

end OrchidsApis
